import Mathlib

set_option linter.unusedVariables false

/-!
Shallow embedding of the FTP/FTPS client in src/ftp_client.py.

Python exceptions are modelled by the `PyError` type and fallible code by
`Except PyError`.  Remote commands issued on a session are recorded in a
`List Cmd` trace.  External effects (the server, the local filesystem and the
ftplib transport) are abstracted by environment records whose fields give the
outcome that each underlying call would produce; the functions below are
line-by-line translations of the control flow of the source methods over
those outcomes.
-/

/-- Exceptions that can flow through the client.  `ftpTransferError` and
`ftpConnectionError` are the custom classes of lines 13-19; `errorPerm` is
`ftplib.error_perm`; the remaining constructors model builtin Python
exceptions.  `message` below is Python `str(e)`. -/
inductive PyError where
  | ftpTransferError (msg : String)
  | ftpConnectionError (msg : String)
  | errorPerm (msg : String)
  | attributeError (msg : String)
  | indexError
  | osError (msg : String)
deriving DecidableEq, Repr

/-- Python `str(e)` for the exceptions above. -/
def PyError.message : PyError → String
  | .ftpTransferError m => m
  | .ftpConnectionError m => m
  | .errorPerm m => m
  | .attributeError m => m
  | .indexError => "list index out of range"
  | .osError m => m

/-- True exactly on `Except.error`. -/
def exceptIsError {A : Type} : Except PyError A → Bool
  | .error _ => true
  | .ok _ => false

/-- Remote commands issued on an FTP session, as recorded in traces. -/
inductive Cmd where
  | sizeCmd (path : String)
  | retr (path : String)
  | stor (path : String)
  | noop
  | siteMd5 (path : String)
  | deleteCmd (path : String)
  | renameCmd (src dst : String)
  | mkd (path : String)
  | cwd (path : String)
  | nlst (path : String)
deriving DecidableEq, Repr

/-- Modelled from the spec: the RetryPolicy loop of section 4.2, implemented in
the source by the external `retrying` library (imported on line 5, not part of
src/).  `op` is the fallible operation, given the 1-based attempt number;
`retryOn` is the failure classifier (`retry_on_exception`): a failure it maps
to `false` is fatal and is raised immediately, one it maps to `true` consumes
a retry attempt.  The second component of the result is the number of times
`op` was invoked.  `fuel` counts the attempts still allowed after the current
one. -/
def retryCallAux {A : Type} (retryOn : PyError → Bool) (op : Nat → Except PyError A) :
    Nat → Nat → Except PyError A × Nat
  | attempt, fuel =>
    match op attempt with
    | .ok a => (.ok a, attempt)
    | .error e =>
      if retryOn e then
        match fuel with
        | 0 => (.error e, attempt)
        | f + 1 => retryCallAux retryOn op (attempt + 1) f
      else (.error e, attempt)

/-- Modelled from the spec: run `op` under the retry policy with at most
`maxAttempts` invocations (the `stop_max_attempt_number` of the decorators). -/
def retryCall {A : Type} (maxAttempts : Nat) (retryOn : PyError → Bool)
    (op : Nat → Except PyError A) : Except PyError A × Nat :=
  retryCallAux retryOn op 1 (maxAttempts - 1)

/-- The classifier actually used by every decorator in the source: no
`retry_on_exception` argument is passed, so the `retrying` library treats
every exception as retryable. -/
def alwaysRetry : PyError → Bool := fun _ => true

/-- The constructor state of `FTPClient.__init__` (lines 27-58): the
configuration surface.  `retry_attempts`, `retry_multiplier` and `retry_max`
are stored on lines 52-54 with the documented meaning of retry count and
backoff parameters. -/
structure FTPClient where
  hostname : String
  username : String
  password : String
  port : Nat
  use_tls : Bool := false
  max_connections : Nat := 5
  timeout : Nat := 10
  retry_attempts : Nat := 5
  retry_multiplier : Nat := 1000
  retry_max : Nat := 10000
deriving Repr

/-- The attempt bound the `download_file` decorator actually uses
(line 233, also line 148): the literal `stop_max_attempt_number=5`,
evaluated at class-definition time, independent of any constructor
argument. -/
def download_stop_max_attempt_number : Nat := 5

/-- `download_file` as wrapped by its `@retry` decorator: the retry loop runs
with the hard-coded attempt bound and the default classifier.  The `client`
configuration takes no part in the wrapping — `client.retry_attempts` is
never consulted. -/
def download_file_wrapped {A : Type} (client : FTPClient) (op : Nat → Except PyError A) :
    Except PyError A × Nat :=
  retryCall download_stop_max_attempt_number alwaysRetry op

/-- A client constructed with `retry_attempts := 3`. -/
def clientRetry3 : FTPClient :=
  { hostname := "ftp.example.com", username := "u", password := "pw",
    port := 21, retry_attempts := 3 }

/-- An operation that fails with a retryable transfer error on every attempt. -/
def alwaysFailingOp : Nat → Except PyError Unit :=
  fun _ => .error (.ftpTransferError "boom")

/-- C2: under the retry policy, an operation whose first invocation raises an
error the classifier marks fatal (non-retryable) is invoked exactly once, and
that error is raised immediately, with no retry attempt consumed. -/
theorem retry_fatal_invokes_once {A : Type} (m : Nat) (retryOn : PyError → Bool)
    (op : Nat → Except PyError A) (e : PyError)
    (h1 : op 1 = .error e) (h2 : retryOn e = false) :
    retryCall m retryOn op = (.error e, 1) := by
  simp [retryCall, retryCallAux, h1, h2]

/-- Witness for C2: a concrete fatal error under a classifier that marks the
connection error non-retryable is surfaced after exactly one invocation. -/
theorem retry_fatal_invokes_once_witness :
    retryCall 5 (fun _ => false)
      (fun _ => (.error (PyError.ftpConnectionError "refused") : Except PyError Unit)) =
      (.error (PyError.ftpConnectionError "refused"), 1) :=
  retry_fatal_invokes_once 5 (fun _ => false)
    (fun _ => (.error (PyError.ftpConnectionError "refused") : Except PyError Unit))
    (PyError.ftpConnectionError "refused") rfl rfl

/-- C3: the claim fails on the code.  A client constructed with
`retry_attempts := 3` still has its always-failing download operation invoked
5 times — the hard-coded `stop_max_attempt_number=5` of the decorator — not
the 3 supplied at construction; the final error is then raised. -/
theorem download_retry_ignores_configured_attempts :
    (download_file_wrapped clientRetry3 alwaysFailingOp).2 = 5 ∧
    (download_file_wrapped clientRetry3 alwaysFailingOp).1 =
      .error (.ftpTransferError "boom") ∧
    clientRetry3.retry_attempts = 3 ∧
    (download_file_wrapped clientRetry3 alwaysFailingOp).2 ≠ clientRetry3.retry_attempts := by
  refine ⟨rfl, rfl, rfl, ?_⟩
  decide

/-- The observable state of the connection pool: `idle` is
`self.connection_pool` (the Python list end is the head here, since
`list.pop()` pops the end and `append` pushes it), `out` the sessions
currently checked out to holders, `next` the next fresh session id, `cap`
`self.max_connections`.  Sessions are identified by numbers. -/
structure PoolState where
  idle : List Nat
  out : List Nat
  next : Nat
  cap : Nat
deriving DecidableEq, Repr

/-- One acquire (`_get_connection`, lines 82-99) or release
(`_release_connection`, lines 101-113) step, performed under `self.lock`.
Acquire pops an idle session and, when its NOOP liveness probe fails,
replaces it by a fresh one; on an empty pool it creates a fresh session.
Release with `auto_release` true appends to the pool only when below
capacity, otherwise quits the session; release with `auto_release` false
does nothing and the holder keeps the session. -/
inductive PoolStep : PoolState → PoolState → Prop where
  | acquireLive (s : Nat) (rest out : List Nat) (next cap : Nat) :
      PoolStep ⟨s :: rest, out, next, cap⟩ ⟨rest, s :: out, next, cap⟩
  | acquireDead (s : Nat) (rest out : List Nat) (next cap : Nat) :
      PoolStep ⟨s :: rest, out, next, cap⟩ ⟨rest, next :: out, next + 1, cap⟩
  | acquireFresh (out : List Nat) (next cap : Nat) :
      PoolStep ⟨[], out, next, cap⟩ ⟨[], next :: out, next + 1, cap⟩
  | releaseKeep (s : Nat) (idle out : List Nat) (next cap : Nat)
      (hmem : s ∈ out) (hlt : idle.length < cap) :
      PoolStep ⟨idle, out, next, cap⟩ ⟨s :: idle, out.erase s, next, cap⟩
  | releaseFull (s : Nat) (idle out : List Nat) (next cap : Nat)
      (hmem : s ∈ out) (hge : ¬ idle.length < cap) :
      PoolStep ⟨idle, out, next, cap⟩ ⟨idle, out.erase s, next, cap⟩
  | releaseNoKeep (s : Nat) (idle out : List Nat) (next cap : Nat)
      (hmem : s ∈ out) :
      PoolStep ⟨idle, out, next, cap⟩ ⟨idle, out, next, cap⟩

/-- Pool well-formedness: the idle list is within capacity and duplicate-free,
checked-out sessions are duplicate-free, no session is both idle and checked
out, and every live session id is below the fresh counter. -/
def PoolInv (st : PoolState) : Prop :=
  st.idle.length ≤ st.cap ∧ st.idle.Nodup ∧ st.out.Nodup ∧
  (∀ s ∈ st.idle, s ∉ st.out) ∧
  (∀ s ∈ st.idle, s < st.next) ∧ (∀ s ∈ st.out, s < st.next)

instance (st : PoolState) : Decidable (PoolInv st) := by
  unfold PoolInv
  infer_instance

theorem poolStep_preserves {st st' : PoolState} (h : PoolInv st) (hs : PoolStep st st') :
    PoolInv st' := by
  obtain ⟨h1, h2, h3, h4, h5, h6⟩ := h
  cases hs with
  | acquireLive s rest out next cap =>
    refine ⟨le_trans (Nat.le_succ _) h1, (List.nodup_cons.mp h2).2,
      List.nodup_cons.mpr ⟨h4 s (List.mem_cons_self s rest), h3⟩, ?_, ?_, ?_⟩
    · intro x hx hmem
      rcases List.mem_cons.mp hmem with rfl | hmem
      · exact (List.nodup_cons.mp h2).1 hx
      · exact h4 x (List.mem_cons_of_mem s hx) hmem
    · exact fun x hx => h5 x (List.mem_cons_of_mem s hx)
    · intro x hx
      rcases List.mem_cons.mp hx with rfl | hx
      · exact h5 x (List.mem_cons_self x rest)
      · exact h6 x hx
  | acquireDead s rest out next cap =>
    refine ⟨le_trans (Nat.le_succ _) h1, (List.nodup_cons.mp h2).2,
      List.nodup_cons.mpr ⟨fun hmem => Nat.lt_irrefl next (h6 next hmem), h3⟩, ?_, ?_, ?_⟩
    · intro x hx hmem
      rcases List.mem_cons.mp hmem with rfl | hmem
      · exact Nat.lt_irrefl x (h5 x (List.mem_cons_of_mem s hx))
      · exact h4 x (List.mem_cons_of_mem s hx) hmem
    · exact fun x hx => Nat.lt_succ_of_lt (h5 x (List.mem_cons_of_mem s hx))
    · intro x hx
      rcases List.mem_cons.mp hx with rfl | hx
      · exact Nat.lt_succ_self x
      · exact Nat.lt_succ_of_lt (h6 x hx)
  | acquireFresh out next cap =>
    refine ⟨h1, h2, List.nodup_cons.mpr ⟨fun hmem => Nat.lt_irrefl next (h6 next hmem), h3⟩,
      ?_, ?_, ?_⟩
    · intro x hx
      exact absurd hx (List.not_mem_nil x)
    · intro x hx
      exact absurd hx (List.not_mem_nil x)
    · intro x hx
      rcases List.mem_cons.mp hx with rfl | hx
      · exact Nat.lt_succ_self x
      · exact Nat.lt_succ_of_lt (h6 x hx)
  | releaseKeep s idle out next cap hmem hlt =>
    have hsni : s ∉ idle := fun hin => h4 s hin hmem
    refine ⟨Nat.succ_le_of_lt hlt, List.nodup_cons.mpr ⟨hsni, h2⟩, h3.erase s, ?_, ?_, ?_⟩
    · intro x hx hmem2
      rcases List.mem_cons.mp hx with rfl | hx
      · exact absurd (h3.mem_erase_iff.mp hmem2).1 (fun hne => hne rfl)
      · exact h4 x hx (List.mem_of_mem_erase hmem2)
    · intro x hx
      rcases List.mem_cons.mp hx with rfl | hx
      · exact h6 x hmem
      · exact h5 x hx
    · exact fun x hx => h6 x (List.mem_of_mem_erase hx)
  | releaseFull s idle out next cap hmem hge =>
    refine ⟨h1, h2, h3.erase s, ?_, h5, ?_⟩
    · exact fun x hx hmem2 => h4 x hx (List.mem_of_mem_erase hmem2)
    · exact fun x hx => h6 x (List.mem_of_mem_erase hx)
  | releaseNoKeep s idle out next cap hmem =>
    exact ⟨h1, h2, h3, h4, h5, h6⟩

theorem poolSteps_preserve {init st : PoolState} (h : PoolInv init)
    (hs : Relation.ReflTransGen PoolStep init st) : PoolInv st := by
  induction hs with
  | refl => exact h
  | tail hab hbc ih => exact poolStep_preserves ih hbc

/-- C4: starting from a well-formed pool (idle list within capacity and
duplicate-free, nothing both idle and checked out), every interleaving of
acquire and release steps keeps the number of idle sessions at or below
`max_connections`, and no session is ever simultaneously in the idle pool
and checked out to a holder. -/
theorem pool_idle_bounded (init st : PoolState) (hinv : PoolInv init)
    (hsteps : Relation.ReflTransGen PoolStep init st) :
    st.idle.length ≤ st.cap ∧ ∀ s ∈ st.idle, s ∉ st.out := by
  have h := poolSteps_preserve hinv hsteps
  exact ⟨h.1, h.2.2.2.1⟩

/-- Witness for C4: from an empty pool of capacity 1, acquire a fresh session
and release it back; the resulting idle count is within capacity. -/
theorem pool_idle_bounded_witness :
    (⟨[0], [], 1, 1⟩ : PoolState).idle.length ≤ (⟨[0], [], 1, 1⟩ : PoolState).cap :=
  (pool_idle_bounded ⟨[], [], 0, 1⟩ ⟨[0], [], 1, 1⟩ (by decide)
    (Relation.ReflTransGen.tail
      (Relation.ReflTransGen.single (PoolStep.acquireFresh [] 0 1))
      (PoolStep.releaseKeep 0 [] [0] 1 1 (by decide) (by decide)))).1

/-- What `_release_connection` does with the session it is given. -/
inductive ReleaseAction where
  | pooled
  | terminated
  | untouched
deriving DecidableEq, Repr

/-- `_release_connection` (lines 101-113): when `auto_release` is true and the
pool is below `max_connections`, append the session to the pool; when
`auto_release` is true and the pool is full, quit the session; when
`auto_release` is false, do nothing at all.  Returns the new pool and what
happened to the session. -/
def _release_connection (pool : List Nat) (max_connections : Nat) (conn : Nat)
    (auto_release : Bool) : List Nat × ReleaseAction :=
  if auto_release then
    if pool.length < max_connections then (pool ++ [conn], .pooled)
    else (pool, .terminated)
  else (pool, .untouched)

/-- C5 counterexample: releasing with `auto_release = false` into an empty
pool of capacity 5 leaves the session neither pooled nor terminated — the
claim that in no case is the session left neither pooled nor terminated is
false on the code. -/
theorem release_no_keep_neither_pooled_nor_terminated :
    (_release_connection [] 5 7 false).2 ≠ ReleaseAction.pooled ∧
    (_release_connection [] 5 7 false).2 ≠ ReleaseAction.terminated ∧
    (_release_connection [] 5 7 false).1 = [] := by
  decide

/-- C5 as amended: with `keep` true the session is pooled exactly when the
idle count is below capacity and terminated exactly when the pool is full;
with `keep` false the session is neither pooled nor terminated — the function
does nothing and the caller keeps the session. -/
theorem release_action_cases (pool : List Nat) (cap conn : Nat) :
    ((_release_connection pool cap conn true).2 = ReleaseAction.pooled ↔
      pool.length < cap) ∧
    ((_release_connection pool cap conn true).2 = ReleaseAction.terminated ↔
      cap ≤ pool.length) ∧
    ((_release_connection pool cap conn true).2 = ReleaseAction.pooled ↔
      (_release_connection pool cap conn true).1 = pool ++ [conn]) ∧
    (_release_connection pool cap conn false).2 = ReleaseAction.untouched ∧
    (_release_connection pool cap conn false).1 = pool := by
  by_cases h : pool.length < cap
  · simp [_release_connection, h]
  · simp [_release_connection, h, Nat.not_lt.mp h]

/-- External outcomes a download can observe: session acquisition
(`ftp_connection`), the SIZE query, and the RETR stream.  On stream success
`retrResult` carries the sizes of the chunks handed to the callback, each of
which is written to the local file, so the final local file size is their
sum (the file was opened with mode wb, truncating it to empty first). -/
structure DownloadEnv where
  conn : Except PyError Unit
  sizeResult : Except PyError Nat
  retrResult : Except PyError (List Nat)
deriving Repr

/-- The exception handling of lines 275-280: `ftplib.error_perm` is wrapped
as a failed-download transfer error (the 550 test on line 276 only chooses a
log line), every other exception as a generic during-download transfer
error. -/
def wrapDownloadError (remote : String) : PyError → PyError
  | .errorPerm m => .ftpTransferError ("Failed to download file " ++ remote ++ ": " ++ m)
  | e => .ftpTransferError ("Error during download: " ++ e.message)

/-- `download_file`, lines 233-280.  This second definition of the method
shadows the first one on lines 148-194 when the class body executes, so it
is the code every call runs.  Control flow: acquire a session, open the
local file, query SIZE, stream with RETR writing each chunk, then check that
the resulting local file is non-empty; the zero-byte transfer error raised
on line 271 is itself caught by the blanket handler on line 279 and
re-wrapped, still as an `FTPTransferError`. -/
def download_file (env : DownloadEnv) (remote local_path : String) :
    Except PyError Unit × List Cmd :=
  match env.conn with
  | .error e => (.error (wrapDownloadError remote e), [])
  | .ok _ =>
    match env.sizeResult with
    | .error e => (.error (wrapDownloadError remote e), [Cmd.sizeCmd remote])
    | .ok _ =>
      match env.retrResult with
      | .error e => (.error (wrapDownloadError remote e), [Cmd.sizeCmd remote, Cmd.retr remote])
      | .ok chunks =>
        if chunks.sum = 0 then
          (.error (wrapDownloadError remote
              (.ftpTransferError ("Downloaded file " ++ local_path ++ " is empty (0KB)"))),
            [Cmd.sizeCmd remote, Cmd.retr remote])
        else (.ok (), [Cmd.sizeCmd remote, Cmd.retr remote])

/-- C6: a download whose RETR stream succeeds but delivers zero bytes (so the
local file is left empty) raises an `FTPTransferError` even though the stream
call reported success. -/
theorem download_zero_byte_transfer_error (env : DownloadEnv) (remote local_path : String)
    (n : Nat) (chunks : List Nat)
    (hconn : env.conn = .ok ()) (hsize : env.sizeResult = .ok n)
    (hretr : env.retrResult = .ok chunks) (hzero : chunks.sum = 0) :
    exceptIsError (download_file env remote local_path).1 = true ∧
    (download_file env remote local_path).1 =
      .error (.ftpTransferError
        ("Error during download: " ++
          ("Downloaded file " ++ local_path ++ " is empty (0KB)"))) := by
  simp [download_file, hconn, hsize, hretr, hzero, wrapDownloadError, PyError.message,
    exceptIsError]

/-- Witness for C6: a concrete download that streams no chunks fails with a
transfer error. -/
theorem download_zero_byte_transfer_error_witness :
    exceptIsError (download_file
      { conn := .ok (), sizeResult := .ok 0, retrResult := .ok [] }
      "/srv/big.bin" "/tmp/big.bin").1 = true :=
  (download_zero_byte_transfer_error
    { conn := .ok (), sizeResult := .ok 0, retrResult := .ok [] }
    "/srv/big.bin" "/tmp/big.bin" 0 [] rfl rfl rfl rfl).1

/-- C9: the claim fails on the code.  The download that actually runs (the
second definition, which shadows the keepalive-attempting first definition on
lines 148-194; the class moreover defines no `keep_alive` method for the
shadowed code or `periodic_keep_alive` to call) never issues a NOOP keepalive
on the session during the stream, whatever the environment. -/
theorem download_never_issues_keepalive (env : DownloadEnv) (remote local_path : String) :
    Cmd.noop ∉ (download_file env remote local_path).2 := by
  rcases env with ⟨conn, sizeResult, retrResult⟩
  cases conn with
  | error e => simp [download_file]
  | ok u =>
    cases sizeResult with
    | error e => simp [download_file]
    | ok n =>
      cases retrResult with
      | error e => simp [download_file]
      | ok chunks =>
        by_cases h : chunks.sum = 0 <;> simp [download_file, h]

/-- External outcomes an upload can observe: session acquisition, opening the
local file, and the STOR stream. -/
structure UploadEnv where
  conn : Except PyError Unit
  openResult : Except PyError Nat
  storResult : Except PyError Unit
deriving Repr

/-- `upload_file`, lines 203-231.  The session is acquired on line 215
outside the try block, so an `FTPConnectionError` raised while acquiring it
propagates unwrapped; failures of the open or the STOR stream inside the try
are wrapped as `FTPTransferError`.  (The `@retry` decorator re-runs the body
against the same outcomes and finally re-raises the same error, so the
post-retry result is the one given here.) -/
def upload_file (env : UploadEnv) (local_path remote : String) :
    Except PyError Unit × List Cmd :=
  match env.conn with
  | .error e => (.error e, [])
  | .ok _ =>
    match env.openResult with
    | .error e =>
      (.error (.ftpTransferError ("Failed to upload file " ++ local_path ++ ": " ++ e.message)), [])
    | .ok _ =>
      match env.storResult with
      | .error e =>
        (.error (.ftpTransferError ("Failed to upload file " ++ local_path ++ ": " ++ e.message)),
          [Cmd.stor remote])
      | .ok _ => (.ok (), [Cmd.stor remote])

/-- A batch item: the environment its upload will observe plus its local and
remote paths. -/
structure BatchItem where
  env : UploadEnv
  local_path : String
  remote : String
deriving Repr

/-- The per-item outcome `future.result()` delivers for a batch item. -/
def batchOutcome (it : BatchItem) : Except PyError Unit :=
  (upload_file it.env it.local_path it.remote).1

/-- The result-collection loop of `parallel_upload` (lines 547-551): walk the
futures in submission order; a per-item `FTPTransferError` is logged and the
loop continues; any other exception propagates out of the batch call
(`except FTPTransferError` is the only handler).  Returns the log lines, or
the escaping error. -/
def collectResults : List (Except PyError Unit) → List String → Except PyError (List String)
  | [], logs => .ok logs.reverse
  | .ok _ :: rest, logs => collectResults rest logs
  | .error (.ftpTransferError m) :: rest, logs =>
      collectResults rest (("Error during parallel upload: " ++ m) :: logs)
  | .error e :: _, _ => .error e

/-- `parallel_upload`, lines 539-551: every item is submitted to the executor
(so every item is attempted regardless of how collection later goes; the
executor shutdown on leaving the with-block waits for them all), then the
results are collected in submission order. -/
def parallel_upload (items : List BatchItem) : Except PyError (List String) :=
  collectResults (items.map batchOutcome) []

/-- Number of log lines in a successful batch result, 0 on an escaping error. -/
def okLogCount : Except PyError (List String) → Nat
  | .ok logs => logs.length
  | .error _ => 0

/-- An outcome the batch loop contains: success, or a failure of the one type
its handler catches. -/
def okOrTransferError : Except PyError Unit → Bool
  | .ok _ => true
  | .error (.ftpTransferError _) => true
  | .error _ => false

theorem collectResults_ok (rs : List (Except PyError Unit)) (logs : List String)
    (h : ∀ r ∈ rs, okOrTransferError r = true) :
    exceptIsError (collectResults rs logs) = false ∧
    okLogCount (collectResults rs logs) =
      logs.length + (rs.filter (fun r => exceptIsError r)).length := by
  induction rs generalizing logs with
  | nil => simp [collectResults, exceptIsError, okLogCount]
  | cons r rest ih =>
    have hr : okOrTransferError r = true := h r (List.mem_cons_self r rest)
    have hrest : ∀ x ∈ rest, okOrTransferError x = true :=
      fun x hx => h x (List.mem_cons_of_mem r hx)
    match r, hr with
    | .ok u, _ =>
      have := ih logs hrest
      simpa [collectResults, exceptIsError, List.filter] using this
    | .error (.ftpTransferError m), _ =>
      obtain ⟨ih1, ih2⟩ := ih (("Error during parallel upload: " ++ m) :: logs) hrest
      have hstep : collectResults (Except.error (PyError.ftpTransferError m) :: rest) logs
          = collectResults rest (("Error during parallel upload: " ++ m) :: logs) := rfl
      have hfil : ((Except.error (PyError.ftpTransferError m) :: rest).filter
            (fun r => exceptIsError r)).length
          = ((rest.filter (fun r => exceptIsError r)).length + 1 : Nat) := by
        simp [List.filter_cons, exceptIsError]
      refine ⟨?_, ?_⟩
      · rw [hstep]
        exact ih1
      · rw [hstep, hfil, ih2]
        simp [List.length_cons]
        omega

/-- An item whose upload succeeds. -/
def itemOk (lp rp : String) : BatchItem :=
  { env := { conn := .ok (), openResult := .ok 10, storResult := .ok () },
    local_path := lp, remote := rp }

/-- An item whose session acquisition fails: `_create_connection` exhausts its
retries and `upload_file` surfaces the `FTPConnectionError` unwrapped
(the with-statement on line 215 sits outside the try block). -/
def itemConnFail (lp rp : String) : BatchItem :=
  { env := { conn := .error (.ftpConnectionError "Error connecting to FTP server: refused"),
             openResult := .ok 10, storResult := .ok () },
    local_path := lp, remote := rp }

/-- An item whose STOR stream fails, which `upload_file` wraps as an
`FTPTransferError`. -/
def itemStorFail (lp rp : String) : BatchItem :=
  { env := { conn := .ok (), openResult := .ok 10,
             storResult := .error (.errorPerm "550 denied") },
    local_path := lp, remote := rp }

/-- C8 counterexample: a batch in which the second item fails with an
`FTPConnectionError` (session acquisition failed) makes the batch call itself
raise that error — the loop on lines 547-551 catches only
`FTPTransferError`, so this per-item failure is propagated, not merely
logged, falsifying the claim. -/
theorem parallel_upload_conn_error_escapes :
    parallel_upload [itemOk "a" "ra", itemConnFail "b" "rb", itemOk "c" "rc"] =
      .error (.ftpConnectionError "Error connecting to FTP server: refused") ∧
    exceptIsError (parallel_upload [itemOk "a" "ra", itemConnFail "b" "rb", itemOk "c" "rc"])
      = true := by
  constructor <;> rfl

/-- C8 as amended: every submitted item is attempted (all outcomes are
computed before collection), and when every per-item failure is an
`FTPTransferError` — the only exception type the handler catches — the batch
call returns normally and logs exactly one line per failed item; a per-item
failure of any other type propagates out of the batch call. -/
theorem parallel_upload_transfer_failures_logged (items : List BatchItem)
    (h : ∀ it ∈ items, okOrTransferError (batchOutcome it) = true) :
    exceptIsError (parallel_upload items) = false ∧
    okLogCount (parallel_upload items) =
      ((items.map batchOutcome).filter (fun r => exceptIsError r)).length := by
  have hall : ∀ r ∈ items.map batchOutcome, okOrTransferError r = true := by
    intro r hr
    rcases List.mem_map.mp hr with ⟨it, hit, rfl⟩
    exact h it hit
  have := collectResults_ok (items.map batchOutcome) [] hall
  simpa [parallel_upload] using this

/-- Witness for C8 (amended): five items of which the third fails with an
`FTPTransferError`; the batch returns normally and logs exactly one failure. -/
theorem parallel_upload_transfer_failures_logged_witness :
    exceptIsError (parallel_upload
        [itemOk "f1" "r1", itemOk "f2" "r2", itemStorFail "f3" "r3",
         itemOk "f4" "r4", itemOk "f5" "r5"]) = false ∧
    okLogCount (parallel_upload
        [itemOk "f1" "r1", itemOk "f2" "r2", itemStorFail "f3" "r3",
         itemOk "f4" "r4", itemOk "f5" "r5"]) =
      (([itemOk "f1" "r1", itemOk "f2" "r2", itemStorFail "f3" "r3",
         itemOk "f4" "r4", itemOk "f5" "r5"].map batchOutcome).filter
        (fun r => exceptIsError r)).length :=
  parallel_upload_transfer_failures_logged
    [itemOk "f1" "r1", itemOk "f2" "r2", itemStorFail "f3" "r3",
     itemOk "f4" "r4", itemOk "f5" "r5"]
    (by decide)

/-- Split a character list at every occurrence of `c` (the pieces keep their
order and lose the separators), like Python `str.split` with a one-character
separator. -/
def splitChar (c : Char) : List Char → List (List Char)
  | [] => [[]]
  | x :: xs =>
    let r := splitChar c xs
    if x = c then [] :: r
    else
      match r with
      | [] => [[x]]
      | y :: ys => (x :: y) :: ys

/-- Join character-list pieces with the separator `c` between them. -/
def joinChar (c : Char) : List (List Char) → List Char
  | [] => []
  | [x] => x
  | x :: xs => x ++ c :: joinChar c xs

/-- `os.path.basename` for forward-slash paths: the part after the last
slash. -/
def pyBasename (p : String) : String :=
  ⟨(splitChar (Char.ofNat 47) p.data).getLastD []⟩

/-- `os.path.dirname` for forward-slash paths: everything before the last
slash. -/
def pyDirname (p : String) : String :=
  ⟨joinChar (Char.ofNat 47) ((splitChar (Char.ofNat 47) p.data).dropLast)⟩

/-- `os.path.join` for forward-slash paths. -/
def pyJoin (d name : String) : String :=
  if d.data = [] then name
  else if d.data.getLastD (Char.ofNat 47) = Char.ofNat 47 then ⟨d.data ++ name.data⟩
  else ⟨d.data ++ Char.ofNat 47 :: name.data⟩

/-- External outcomes `check_file_exists` can observe: session acquisition
and the NLST listing of the directory of the queried path. -/
structure ExistsEnv where
  conn : Except PyError Unit
  nlst : Except PyError (List String)
deriving Repr

/-- `check_file_exists`, lines 427-441: list the directory of the path and
test whether the basename is among the names; the whole body, session
acquisition included, sits inside a try whose handler logs and returns
False, so every underlying failure comes back as `false`.  The second
component is the command trace. -/
def check_file_exists (env : ExistsEnv) (remote_file_path : String) : Bool × List Cmd :=
  match env.conn with
  | .error _ => (false, [])
  | .ok _ =>
    match env.nlst with
    | .error _ => (false, [Cmd.nlst (pyDirname remote_file_path)])
    | .ok files =>
      (decide (pyBasename remote_file_path ∈ files), [Cmd.nlst (pyDirname remote_file_path)])

/-- C10: `check_file_exists` always returns a boolean (it is total by
construction) and on any underlying failure — session acquisition or the
listing command — it returns `false`, exactly the value it returns for a
genuinely absent file, so its callers (`move_file` among them, which feeds
this boolean into its collision handling) cannot tell a server error from
absence. -/
theorem check_file_exists_failure_false (env : ExistsEnv) (p : String)
    (h : exceptIsError env.conn = true ∨ exceptIsError env.nlst = true) :
    (check_file_exists env p).1 = false ∧
    (check_file_exists env p).1 =
      (check_file_exists { conn := .ok (), nlst := .ok [] } p).1 := by
  have habsent : (check_file_exists { conn := .ok (), nlst := .ok [] } p).1 = false := by
    simp [check_file_exists]
  rcases env with ⟨conn, nlst⟩
  rcases h with h | h
  · cases conn with
    | error e => simp [check_file_exists, habsent]
    | ok u => simp [exceptIsError] at h
  · cases nlst with
    | error e =>
      cases conn with
      | error e2 => simp [check_file_exists, habsent]
      | ok u => simp [check_file_exists, habsent]
    | ok files => simp [exceptIsError] at h

/-- `os.path.splitext`: split a file name at its last dot. -/
def pySplitext (name : String) : String × String :=
  let parts := splitChar (Char.ofNat 46) name.data
  if parts.length ≤ 1 then (name, "")
  else (⟨joinChar (Char.ofNat 46) parts.dropLast⟩, ⟨Char.ofNat 46 :: parts.getLastD []⟩)

/-- Line 1 imports with `from datetime import datetime`, binding the class
itself, so the expression `datetime.datetime.now().strftime(...)` on line 373
is an invalid attribute access on the class and raises `AttributeError` when
that branch runs. -/
def datetime_datetime_now_strftime : Except PyError String :=
  .error (.attributeError "type object datetime has no attribute datetime")

/-- Does `pat` occur as a contiguous sublist of `s`? -/
def containsSubAux (pat : List Char) : List Char → Bool
  | [] => pat.isEmpty
  | x :: xs => pat.isPrefixOf (x :: xs) || containsSubAux pat xs

/-- Substring test, for the `550` and `already exists` membership tests of
lines 385-386. -/
def strContains (s pat : String) : Bool :=
  containsSubAux pat.data s.data

/-- External outcomes `move_file` can observe: session acquisition, the
`directory_exists` probe of the destination directory, the MKD used when it
is absent, the environment of the nested `check_file_exists` call, and the
DELE and RNFR/RNTO outcomes. -/
structure MoveEnv where
  conn : Except PyError Unit
  dir_exists : Bool
  mkdResult : Except PyError Unit
  existsEnv : ExistsEnv
  deleteResult : Except PyError Unit
  renameResult : Except PyError Unit
deriving Repr

/-- The outer exception handling of `move_file` (lines 383-392): a raw
`ftplib.error_perm` gets the 550 special-casing; everything else — custom
errors included — is wrapped as a generic failed-to-move transfer error. -/
def wrapMoveError (src dest_dir dest_remote_path : String) : PyError → PyError
  | .errorPerm m =>
    if strContains m "550" then
      if strContains m.toLower "already exists" then
        .ftpTransferError
          ("Destination file already exists and overwrite is disabled: " ++ dest_remote_path)
      else .ftpTransferError ("Permission denied: " ++ m)
    else .ftpTransferError
      ("Failed to move file from " ++ src ++ " to " ++ dest_dir ++ ": " ++ m)
  | e => .ftpTransferError
      ("Failed to move file from " ++ src ++ " to " ++ dest_dir ++ ": " ++ e.message)

/-- The rename step of `move_file` (line 380) with the handlers of lines
383-392 applied to its failure. -/
def moveRename (env : MoveEnv) (src dest_dir dest_remote_path : String) (tr : List Cmd) :
    Except PyError Unit × List Cmd :=
  match env.renameResult with
  | .error e =>
    (.error (wrapMoveError src dest_dir dest_remote_path e),
      tr ++ [Cmd.renameCmd src dest_remote_path])
  | .ok _ => (.ok (), tr ++ [Cmd.renameCmd src dest_remote_path])

/-- `move_file`, lines 336-392, for a given `overwrite` flag.  Steps: take the
basename of the source, ensure the destination directory exists (CWD probe,
MKD when absent), build the destination path, ask `check_file_exists` whether
it collides, then either delete-and-rename (overwrite), or build a
timestamped name — which evaluates `datetime.datetime.now()` and therefore
raises `AttributeError`, caught by the blanket handler on line 391 — or
rename directly. -/
def move_file (env : MoveEnv) (src_remote_path dest_remote_directory : String)
    (overwrite : Bool) : Except PyError Unit × List Cmd :=
  match env.conn with
  | .error e => (.error (wrapMoveError src_remote_path dest_remote_directory "" e), [])
  | .ok _ =>
    let file_name := pyBasename src_remote_path
    let tr0 := [Cmd.cwd dest_remote_directory]
    let mkStep : Except PyError Unit × List Cmd :=
      if env.dir_exists then (.ok (), tr0)
      else
        match env.mkdResult with
        | .error e =>
          (.error (.ftpTransferError
              ("Failed to create directory " ++ dest_remote_directory ++ ": " ++ e.message)),
            tr0 ++ [Cmd.mkd dest_remote_directory])
        | .ok _ => (.ok (), tr0 ++ [Cmd.mkd dest_remote_directory])
    match mkStep with
    | (.error e, tr) =>
      (.error (wrapMoveError src_remote_path dest_remote_directory "" e), tr)
    | (.ok _, tr) =>
      let dest_remote_path := pyJoin dest_remote_directory file_name
      let existsCheck := check_file_exists env.existsEnv dest_remote_path
      let tr := tr ++ existsCheck.2
      if existsCheck.1 then
        if overwrite then
          match env.deleteResult with
          | .error (.errorPerm m) =>
            (.error (wrapMoveError src_remote_path dest_remote_directory dest_remote_path
                (.ftpTransferError
                  ("Failed to delete existing file at " ++ dest_remote_path ++ ": " ++ m))),
              tr ++ [Cmd.deleteCmd dest_remote_path])
          | .error e =>
            (.error (wrapMoveError src_remote_path dest_remote_directory dest_remote_path e),
              tr ++ [Cmd.deleteCmd dest_remote_path])
          | .ok _ =>
            moveRename env src_remote_path dest_remote_directory dest_remote_path
              (tr ++ [Cmd.deleteCmd dest_remote_path])
        else
          match datetime_datetime_now_strftime with
          | .error e =>
            (.error (wrapMoveError src_remote_path dest_remote_directory dest_remote_path e), tr)
          | .ok timestamp =>
            let se := pySplitext file_name
            let new_file_name := se.1 ++ "_" ++ timestamp ++ se.2
            moveRename env src_remote_path dest_remote_directory
              (pyJoin dest_remote_directory new_file_name) tr
      else
        moveRename env src_remote_path dest_remote_directory dest_remote_path tr

/-- A `move_file` environment in which everything on the server works and the
destination name is already taken. -/
def moveEnvCollision : MoveEnv :=
  { conn := .ok (), dir_exists := true, mkdResult := .ok (),
    existsEnv := { conn := .ok (), nlst := .ok ["data.csv"] },
    deleteResult := .ok (), renameResult := .ok () }

/-- C7: the claim fails on the code.  With `overwrite = False` and a
destination collision, `move_file` raises an `FTPTransferError` wrapping the
`AttributeError` from `datetime.datetime.now()` (line 373) instead of moving
the file under a timestamped name: no rename and no delete is ever issued.
The pre-existing destination file is indeed untouched, but the move fails
outright. -/
theorem move_collision_no_overwrite_errors :
    (move_file moveEnvCollision "/in/data.csv" "/archive" false).1 =
      .error (.ftpTransferError
        ("Failed to move file from /in/data.csv to /archive: " ++
          "type object datetime has no attribute datetime")) ∧
    (move_file moveEnvCollision "/in/data.csv" "/archive" false).2 =
      [Cmd.cwd "/archive", Cmd.nlst "/archive"] := by
  constructor <;> rfl

/-- External outcomes `verify_file_integrity` can observe: session
acquisition, the size of the local file, the SIZE query, the `SITE MD5`
capability command, the digest of the local file, and — when the fallback
runs — the digest obtained by downloading the remote file to a temporary
path (or the failure of that nested `download_file` call, which its caller
does not catch). -/
structure VerifyEnv where
  conn : Except PyError Unit
  localSize : Nat
  sizeResult : Except PyError Nat
  siteMd5Result : Except PyError String
  localMd5 : String
  fallbackDigest : Except PyError String
deriving Repr

/-- The inner try of `verify_file_integrity` (lines 515-524): compare sizes —
a mismatch raises an `FTPTransferError` — then issue `SITE MD5` and parse the
second token of its response.  An `error` result here is the exception that
reaches the blanket `except Exception` handler on line 525. -/
def verifyInner (env : VerifyEnv) (local_path remote : String) :
    Except PyError String × List Cmd :=
  match env.sizeResult with
  | .error e => (.error e, [Cmd.sizeCmd remote])
  | .ok remote_size =>
    if env.localSize ≠ remote_size then
      (.error (.ftpTransferError
          ("File size mismatch for " ++ local_path ++ " and " ++ remote)),
        [Cmd.sizeCmd remote])
    else
      match env.siteMd5Result with
      | .error e => (.error e, [Cmd.sizeCmd remote, Cmd.siteMd5 remote])
      | .ok resp =>
        match (splitChar (Char.ofNat 32) resp.data).get? 1 with
        | none => (.error .indexError, [Cmd.sizeCmd remote, Cmd.siteMd5 remote])
        | some c => (.ok ⟨c⟩, [Cmd.sizeCmd remote, Cmd.siteMd5 remote])

/-- `verify_file_integrity`, lines 503-537.  Whatever exception escapes the
inner try — the SIZE failure, the size-mismatch `FTPTransferError`, a `SITE
MD5` failure or its parse error — lands in the handler on line 525, which
downloads the whole remote file to a temporary path and hashes it; the final
digest comparison raises a checksum-mismatch `FTPTransferError` on inequality
and the outer handler on line 536 wraps every escaping exception as a
failed-to-verify `FTPTransferError`. -/
def verify_file_integrity (env : VerifyEnv) (local_path remote : String) :
    Except PyError Unit × List Cmd :=
  match env.conn with
  | .error e =>
    (.error (.ftpTransferError
        ("Failed to verify integrity for " ++ local_path ++ ": " ++ e.message)), [])
  | .ok _ =>
    let inner := verifyInner env local_path remote
    let afterFallback : Except PyError String × List Cmd :=
      match inner.1 with
      | .ok c => (.ok c, inner.2)
      | .error _ =>
        match env.fallbackDigest with
        | .error e => (.error e, inner.2 ++ [Cmd.retr remote])
        | .ok d => (.ok d, inner.2 ++ [Cmd.retr remote])
    match afterFallback.1 with
    | .error e =>
      (.error (.ftpTransferError
          ("Failed to verify integrity for " ++ local_path ++ ": " ++ e.message)),
        afterFallback.2)
    | .ok remote_checksum =>
      if env.localMd5 ≠ remote_checksum then
        (.error (.ftpTransferError
            ("Failed to verify integrity for " ++ local_path ++ ": " ++
              ("Checksum mismatch for " ++ local_path ++ " and " ++ remote))),
          afterFallback.2)
      else (.ok (), afterFallback.2)

/-- A verification in which the local file is 100 bytes, the remote file is
200 bytes, the server would even answer `SITE MD5`, and the two contents
hash differently. -/
def verifyEnvSizeMismatch : VerifyEnv :=
  { conn := .ok (), localSize := 100, sizeResult := .ok 200,
    siteMd5Result := .ok "251 abc123", localMd5 := "aaa111",
    fallbackDigest := .ok "bbb222" }

/-- C1: the claim fails on the code.  With local size 100 and remote size
200, the size-mismatch `FTPTransferError` raised on line 520 is swallowed by
the blanket handler on line 525 that was meant for an unsupported `SITE MD5`,
so verification does not stop: the download-and-hash fallback is issued
(RETR appears in the trace) and the surfaced failure is the wrapped
checksum mismatch, not the size mismatch. -/
theorem verify_size_mismatch_not_immediate :
    (verify_file_integrity verifyEnvSizeMismatch "local.bin" "remote.bin").2 =
      [Cmd.sizeCmd "remote.bin", Cmd.retr "remote.bin"] ∧
    (verify_file_integrity verifyEnvSizeMismatch "local.bin" "remote.bin").1 =
      .error (.ftpTransferError
        ("Failed to verify integrity for local.bin: " ++
          ("Checksum mismatch for local.bin and remote.bin"))) := by
  constructor <;> rfl

/-- Witness for C10: a listing failure (a 550 permission error from NLST)
makes `check_file_exists` answer `false`, the same answer an absent file
gets. -/
theorem check_file_exists_failure_false_witness :
    (check_file_exists
      { conn := .ok (), nlst := .error (.errorPerm "550 permission denied") }
      "/data/in/report.csv").1 = false :=
  (check_file_exists_failure_false
    { conn := .ok (), nlst := .error (.errorPerm "550 permission denied") }
    "/data/in/report.csv" (Or.inr rfl)).1
